import Mathlib

/-!
Verification of the HTTP greeter service in `src/src/index.js` against its
design specification. The program is a twelve-line express application:
it computes a listen port from the environment, fixes the host to the
wildcard address, registers a single GET route on the root path returning a
constant greeting, and falls back to the framework default not-found
response everywhere else. The embedding below translates that program,
together with the express framework defaults it relies on (route matching,
string `res.send`, the final not-found handler), into pure Lean functions.
-/

namespace Greeter

/-- The fixed greeting returned by the root handler
(`res.send` argument, index.js line 12). -/
def greeting : String := "Jay Shree Krishna! Welcome to the world of DevOps!..."

/-- A JavaScript value as it can appear in this program: the expression
`process.env.APP_PORT_NUMBER || 80` evaluates either to the raw string read
from the environment or to the number literal 80. -/
inductive JsValue where
  | str : String → JsValue
  | num : Nat → JsValue
deriving DecidableEq, Repr

/-- JavaScript string conversion, as performed by the template literal in the
startup log line. -/
def JsValue.toJsString : JsValue → String
  | JsValue.str s => s
  | JsValue.num n => toString n

/-- `const PORT = process.env.APP_PORT_NUMBER || 80;` (index.js line 6).
JavaScript `||` yields the right operand exactly when the left operand is
falsy; for an environment lookup that means the variable is unset (`none`)
or bound to the empty string. No parsing, conversion or validation occurs:
any other string flows through unchanged. -/
def PORT (env : Option String) : JsValue :=
  match env with
  | none => JsValue.num 80
  | some s => if s = "" then JsValue.num 80 else JsValue.str s

/-- `const HOST = '0.0.0.0';` (index.js line 7). -/
def HOST : String := "0.0.0.0"

/-- An incoming HTTP request as far as this program can observe it. The
handler receives the whole request object; the fields beyond method and
path (headers, arrival time) are carried to state independence results. -/
structure Request where
  method : String
  urlPath : String
  headers : List (String × String)
  arrivalTime : Nat
deriving DecidableEq, Repr

/-- The response produced for a request: status code, content type header
and body. -/
structure Response where
  status : Nat
  contentType : String
  body : String
deriving DecidableEq, Repr

/-- The express final handler body for an unmatched request: the framework
default not-found page, an HTML document naming the method and path. -/
def notFoundBody (method urlPath : String) : String :=
  "<!DOCTYPE html>\n<html lang=\"en\">\n<head>\n<meta charset=\"utf-8\">\n<title>Error</title>\n</head>\n<body>\n<pre>Cannot "
    ++ method ++ " " ++ urlPath ++ "</pre>\n</body>\n</html>\n"

/-- The express application of index.js lines 10 to 13: a single route
`app.get('/', (req, res) => res.send(greeting))`. `app.get` matches the
GET method on the given path (and HEAD, which express serves through GET
routes when no HEAD route exists); `res.send` with a string body uses the
framework default status 200 and content type text/html with utf-8
charset. Every other request reaches the framework final handler, which
answers 404 with the default not-found page. -/
def handleRequest (req : Request) : Response :=
  if (req.method = "GET" ∨ req.method = "HEAD") ∧ req.urlPath = "/" then
    { status := 200
      contentType := "text/html; charset=utf-8"
      body := greeting }
  else
    { status := 404
      contentType := "text/html; charset=utf-8"
      body := notFoundBody req.method req.urlPath }

/-- Process-wide state of the running service: the bound listen pair and the
lines written to the console so far. -/
structure ServerState where
  port : JsValue
  host : String
  log : List String
deriving DecidableEq, Repr

/-- `app.listen(PORT, HOST, () => console.log(...))` (index.js lines 15 to
17): at process start the environment is read once, the listen pair is
fixed, and a single startup line is logged. -/
def startServer (env : Option String) : ServerState :=
  { port := PORT env
    host := HOST
    log := ["Running on http://" ++ HOST ++ ":" ++ (PORT env).toJsString] }

/-- Serving one request. The handler closes over no mutable state and
mutates none: it only emits the response computed from the request. -/
def step (s : ServerState) (req : Request) : ServerState × Response :=
  (s, handleRequest req)

/-- Serving a whole sequence of requests, threading the process state. -/
def processRequests (s : ServerState) (reqs : List Request) :
    ServerState × List Response :=
  match reqs with
  | [] => (s, [])
  | r :: rs =>
    let p := step s r
    let q := processRequests p.1 rs
    (q.1, p.2 :: q.2)

lemma string_data_append (s t : String) : (s ++ t).data = s.data ++ t.data := rfl

/-- The framework not-found page is never the greeting: the former starts
with the character <, the latter with the character J. -/
lemma notFoundBody_ne_greeting (m p : String) : notFoundBody m p ≠ greeting := by
  intro h
  have h1 : (notFoundBody m p).data.head? = some '<' := rfl
  have h2 : greeting.data.head? = some 'J' := rfl
  rw [h, h2] at h1
  exact absurd h1 (by decide)

/-- Processing any request sequence leaves the process state untouched. -/
lemma processRequests_fst (s : ServerState) (reqs : List Request) :
    (processRequests s reqs).1 = s := by
  induction reqs with
  | nil => rfl
  | cons r rs ih => simpa [processRequests, step] using ih

/-- Claim C1: every HTTP request with method GET and path `/` receives a
response with status 200 and body exactly the fixed greeting string. -/
theorem c1_root_get_returns_greeting (req : Request) (hm : req.method = "GET")
    (hp : req.urlPath = "/") :
    (handleRequest req).status = 200 ∧ (handleRequest req).body = greeting := by
  simp [handleRequest, hm, hp]

/-- Claim C1 witness: a concrete GET request to the root path. -/
theorem c1_root_get_returns_greeting_witness :
    (handleRequest ⟨"GET", "/", [], 0⟩).status = 200 ∧
      (handleRequest ⟨"GET", "/", [], 0⟩).body = greeting :=
  c1_root_get_returns_greeting ⟨"GET", "/", [], 0⟩ rfl rfl

/-- Claim C2: the port is the default 80 when APP_PORT_NUMBER is unset or
empty, and otherwise the environment value itself. -/
theorem c2_port_from_environment :
    PORT none = JsValue.num 80 ∧ PORT (some "") = JsValue.num 80 ∧
      ∀ s : String, s ≠ "" → PORT (some s) = JsValue.str s := by
  refine ⟨rfl, rfl, fun s hs => ?_⟩
  simp [PORT, hs]

/-- Claim C2 witness: the concrete value 8080 is used as the port. -/
theorem c2_port_from_environment_witness :
    PORT (some "8080") = JsValue.str "8080" :=
  c2_port_from_environment.2.2 "8080" (by decide)

/-- Claim C3: a GET request to any path other than `/` receives a non-200
not-found response whose body is never the greeting. -/
theorem c3_other_path_not_found (req : Request) (hm : req.method = "GET")
    (hp : req.urlPath ≠ "/") :
    (handleRequest req).status = 404 ∧ (handleRequest req).status ≠ 200 ∧
      (handleRequest req).body ≠ greeting := by
  rw [handleRequest, if_neg (by simp [hp])]
  exact ⟨rfl, by simp, notFoundBody_ne_greeting _ _⟩

/-- Claim C3 witness: a concrete GET request to the path /health. -/
theorem c3_other_path_not_found_witness :
    (handleRequest ⟨"GET", "/health", [], 0⟩).status = 404 ∧
      (handleRequest ⟨"GET", "/health", [], 0⟩).status ≠ 200 ∧
      (handleRequest ⟨"GET", "/health", [], 0⟩).body ≠ greeting :=
  c3_other_path_not_found ⟨"GET", "/health", [], 0⟩ rfl (by decide)

/-- Claim C4: any two GET requests to `/`, however they differ in headers or
arrival time, receive byte-identical bodies, namely the constant greeting. -/
theorem c4_response_deterministic (r1 r2 : Request) (h1m : r1.method = "GET")
    (h2m : r2.method = "GET") (h1p : r1.urlPath = "/") (h2p : r2.urlPath = "/") :
    (handleRequest r1).body = (handleRequest r2).body ∧
      (handleRequest r1).body = greeting := by
  simp [handleRequest, h1m, h2m, h1p, h2p]

/-- Claim C4 witness: two concrete requests differing in headers and in
arrival time. -/
theorem c4_response_deterministic_witness :
    (handleRequest ⟨"GET", "/", [("X-Trace", "a")], 5⟩).body =
        (handleRequest ⟨"GET", "/", [], 99⟩).body ∧
      (handleRequest ⟨"GET", "/", [("X-Trace", "a")], 5⟩).body = greeting :=
  c4_response_deterministic ⟨"GET", "/", [("X-Trace", "a")], 5⟩
    ⟨"GET", "/", [], 99⟩ rfl rfl rfl rfl

/-- Claim C5: a non-empty APP_PORT_NUMBER value, numeric or not, reaches the
listener bind unparsed and unchanged: the bound port is the raw string. -/
theorem c5_port_unvalidated (s : String) (hs : s ≠ "") :
    (startServer (some s)).port = JsValue.str s := by
  simp [startServer, PORT, hs]

/-- Claim C5 witness: the non-numeric value abc is bound verbatim. -/
theorem c5_port_unvalidated_witness :
    (startServer (some "abc")).port = JsValue.str "abc" :=
  c5_port_unvalidated "abc" (by decide)

/-- Claim C6: the listen pair is fixed at process start and no amount of
request handling changes the bound port or host, for every environment. -/
theorem c6_listen_address_immutable (env : Option String) (reqs : List Request) :
    (processRequests (startServer env) reqs).1.port = (startServer env).port ∧
      (processRequests (startServer env) reqs).1.host = (startServer env).host := by
  rw [processRequests_fst]
  exact ⟨rfl, rfl⟩

/-- Claim C7: handling a request to `/` leaves the whole process state
(port, host, log) unchanged, writes nothing to the log, and the log holds
exactly the single startup line. -/
theorem c7_handler_frame (env : Option String) (req : Request) :
    (step (startServer env) req).1 = startServer env ∧
      (step (startServer env) req).1.log.length = 1 ∧
      (step (startServer env) req).2 = handleRequest req :=
  ⟨rfl, rfl, rfl⟩

/-- Claim C8: the listener host is the wildcard address 0.0.0.0 for every
environment. -/
theorem c8_host_wildcard (env : Option String) :
    HOST = "0.0.0.0" ∧ (startServer env).host = "0.0.0.0" :=
  ⟨rfl, rfl⟩

/-- Claim C9: a request to `/` whose method is neither GET nor HEAD does not
match the registered route, falls to the framework not-found handler, and
never receives the greeting body. -/
theorem c9_non_get_not_matched (req : Request) (hp : req.urlPath = "/")
    (hg : req.method ≠ "GET") (hh : req.method ≠ "HEAD") :
    (handleRequest req).status = 404 ∧ (handleRequest req).body ≠ greeting := by
  rw [handleRequest, if_neg (by simp [hg, hh])]
  exact ⟨rfl, notFoundBody_ne_greeting _ _⟩

/-- Claim C9 witness: a concrete POST request to the root path. -/
theorem c9_non_get_not_matched_witness :
    (handleRequest ⟨"POST", "/", [], 0⟩).status = 404 ∧
      (handleRequest ⟨"POST", "/", [], 0⟩).body ≠ greeting :=
  c9_non_get_not_matched ⟨"POST", "/", [], 0⟩ rfl (by decide) (by decide)

/-- Claim C10: the successful root response carries the framework default
content type for string bodies, text/html with utf-8 charset, and not
text/plain. -/
theorem c10_content_type_html (req : Request) (hm : req.method = "GET")
    (hp : req.urlPath = "/") :
    (handleRequest req).status = 200 ∧
      (handleRequest req).contentType = "text/html; charset=utf-8" ∧
      (handleRequest req).contentType ≠ "text/plain" := by
  simp [handleRequest, hm, hp]

/-- Claim C10 witness: a concrete GET request to the root path. -/
theorem c10_content_type_html_witness :
    (handleRequest ⟨"GET", "/", [], 0⟩).status = 200 ∧
      (handleRequest ⟨"GET", "/", [], 0⟩).contentType = "text/html; charset=utf-8" ∧
      (handleRequest ⟨"GET", "/", [], 0⟩).contentType ≠ "text/plain" :=
  c10_content_type_html ⟨"GET", "/", [], 0⟩ rfl rfl

end Greeter
